import Mathlib

/-!
Verification of `web_monitor_bot.py` (jjunlob074/pythonbot).

Shallow embedding of the per-target incident state machine, the probe
classification and the message rendering of `src/web_monitor_bot.py`,
together with proofs of the specification claims about them.

Modelling conventions:

* Timestamps are `Nat` epoch seconds (the code works with timezone-aware
  `datetime` values; all claims are about presence, ordering and second
  granularity of timestamps, never about calendar rendering of dates, so
  epoch seconds suffice; `strftime` clock-of-day rendering is embedded as
  arithmetic on epoch seconds).
* The module-level maps `down_since : dict[str, datetime]`,
  `alerted : set[str]` and `ok_streak : dict[str, int]` are keyed by URL,
  and the loop bodies of `monitor_loop` and `cmd_check` read and write only
  the entries of the URL being processed, so we embed the per-target
  projection of the three maps as one `TargetState` record; absence of a
  dictionary entry is `none` (for `ok_streak`, `dict.get(url, 0)` is
  `Option.getD 0`).
* Network effects (`page.goto`) are embedded as an explicit `ProbeEvent`
  describing what the probe attempt produced: a returned response (with its
  optional status code and measured latency) or a raised exception (with
  its message); `check_website` is then the pure classification the code
  performs on that event.
* `datetime.now()` rendering for message headers (`now_str()`) is passed in
  as an already rendered string parameter; the numeric cycle timestamp
  `now = now_tz()` is passed as a `Nat`.
-/

namespace WebMonitorBot

/-- Configuration constant `TIMEOUT = 60_000` (ms per web), line 31. -/
def TIMEOUT : Nat := 60000

/-- Configuration constant `RECOVERY_CONFIRMS = 1`, line 34 (the default
recovery threshold; the state machine is embedded with the threshold as a
parameter and this constant as its configured value). -/
def RECOVERY_CONFIRMS : Nat := 1

/-- The result dictionary built by `check_website` (lines 114-123):
`{"url", "status", "code", "time_ms", "description"}`.  `status` is one of
the strings "ok", "warning", "timeout", "error"; `code` and `time_ms` are
`None`-able. -/
structure CheckResult where
  url : String
  status : String
  code : Option Nat
  time_ms : Option Nat
  description : String
deriving DecidableEq

/-- `get_http_description` (lines 129-138). -/
def get_http_description (code : Nat) : String :=
  if code = 200 then "OK"
  else if code = 201 then "Creado"
  else if code = 204 then "Sin contenido"
  else if code = 301 then "Movido permanentemente"
  else if code = 302 then "Redirección temporal"
  else if code = 400 then "Solicitud incorrecta"
  else if code = 401 then "No autorizado"
  else if code = 403 then "Prohibido"
  else if code = 404 then "No encontrado"
  else if code = 408 then "Timeout"
  else if code = 429 then "Demasiadas solicitudes"
  else if code = 500 then "Error interno del servidor"
  else if code = 502 then "Bad Gateway"
  else if code = 503 then "Servicio no disponible"
  else if code = 504 then "Gateway Timeout"
  else "Código HTTP " ++ toString code

/-- Python's `str.lower()` as used on exception messages (line 119),
embedded over the character list (`Char.toLower` lowers the ASCII range,
which covers the alphabet the code's `"timeout"` test cares about). -/
def lowerStr (s : String) : String := ⟨s.data.map Char.toLower⟩

/-- Python's `pat in s` substring test, used for `"timeout" in err.lower()`
(line 119): `pat` occurs in `s` iff it is a prefix of some suffix of `s`. -/
def containsSubstr (s pat : String) : Bool :=
  (List.range (s.data.length + 1)).any fun i => pat.data.isPrefixOf (s.data.drop i)

/-- What a single probe attempt produced, the input `check_website`
classifies: either `page.goto` returned (`response` possibly `None`, hence
an optional status code, plus the measured elapsed milliseconds), or an
exception was raised with a given message. -/
inductive ProbeEvent where
  | gotoReturned (code : Option Nat) (elapsedMs : Nat)
  | raised (msg : String)
deriving DecidableEq

/-- The classification performed by `check_website` (lines 88-126) on the
outcome of the probe attempt.  Mirrors lines 103-123: with a response,
`code is None` → "error"/"Sin respuesta", `200 ≤ c < 300` → "ok",
`300 ≤ c < 400` → "warning", otherwise "error"; on an exception whose
message contains "timeout" (case-insensitive) → "timeout" with
`time_ms = TIMEOUT`; on any other exception → "error" with no code and no
latency and the first 80 characters of the message as description.  The
function is total: every probe event yields a `CheckResult`. -/
def check_website (url : String) (ev : ProbeEvent) : CheckResult :=
  match ev with
  | .gotoReturned code elapsedMs =>
    match code with
    | none => ⟨url, "error", none, some elapsedMs, "Sin respuesta"⟩
    | some c =>
      if 200 ≤ c ∧ c < 300 then ⟨url, "ok", some c, some elapsedMs, get_http_description c⟩
      else if 300 ≤ c ∧ c < 400 then ⟨url, "warning", some c, some elapsedMs, get_http_description c⟩
      else ⟨url, "error", some c, some elapsedMs, get_http_description c⟩
  | .raised msg =>
    if containsSubstr (lowerStr msg) "timeout" then
      ⟨url, "timeout", none, some TIMEOUT, "Tiempo de espera agotado"⟩
    else
      ⟨url, "error", none, none, msg.take 80⟩

/-- `duration_str` (lines 162-172): the elapsed downtime from `since` to
`nowT`, in whole seconds, rendered as `"{h}h {m}m"` when at least one hour,
else `"{m}m {s}s"` when at least one minute, else `"{s}s"`. -/
def duration_str (nowT since : Nat) : String :=
  let total := nowT - since
  let h := total / 3600
  let rem := total % 3600
  let m := rem / 60
  let s := rem % 60
  if h ≠ 0 then toString h ++ "h " ++ toString m ++ "m"
  else if m ≠ 0 then toString m ++ "m " ++ toString s ++ "s"
  else toString s ++ "s"

/-- Two-digit zero padding for clock rendering. -/
def pad2 (n : Nat) : String :=
  if n < 10 then "0" ++ toString n else toString n

/-- `strftime('%H:%M:%S')` of an epoch-second timestamp (clock of day). -/
def hhmmss (t : Nat) : String :=
  pad2 (t / 3600 % 24) ++ ":" ++ pad2 (t / 60 % 60) ++ ":" ++ pad2 (t % 60)

/-- `build_recovery` (lines 197-203): the recovery notification naming the
URL and the formatted elapsed downtime `duration_str` from `since` to the
message-build time `nowT`; `nowStr` is the rendered `now_str()` header
timestamp. -/
def build_recovery (nowStr : String) (nowT : Nat) (url : String) (since : Nat) : String :=
  "✅ *RECUPERADA — " ++ nowStr ++ "*\n🌐 " ++ url ++ "\n⏱ Tiempo caída: *" ++
    duration_str nowT since ++ "*"

/-- The per-result emoji choice of `build_full_report` line 219:
`"⏱️" if r["status"] == "timeout" else "❌"`. -/
def report_emoji (status : String) : String :=
  if status = "timeout" then "⏱️" else "❌"

/-- The code rendering `f"`{r['code']}`" if r["code"] else "`---`"` of
lines 186 and 220 (Python truthiness: a `None` or `0` code renders as
`---`). -/
def code_str (code : Option Nat) : String :=
  match code with
  | some c => if c = 0 then "`---`" else "`" ++ toString c ++ "`"
  | none => "`---`"

/-- The UP tally of `build_full_report` line 207:
`ok = sum(1 for r in results if r["status"] == "ok")`. -/
def report_ok_count (results : List CheckResult) : Nat :=
  (results.filter (fun r => r.status = "ok")).length

/-- The DOWN tally of `build_full_report` line 208: `failed = len(results) - ok`. -/
def report_failed_count (results : List CheckResult) : Nat :=
  results.length - report_ok_count results

/-- Python `str(...)` of an optional integer as interpolated by an f-string
(`None` renders as "None"). -/
def optNatStr (o : Option Nat) : String :=
  match o with
  | some c => toString c
  | none => "None"

/-- One per-target line of `build_full_report` (lines 214-223); `since` is
the `down_since.get(r["url"])` lookup of line 221. -/
def report_line (nowT : Nat) (since : Option Nat) (r : CheckResult) : String :=
  if r.status = "ok" then
    "✅ *" ++ r.url ++ "*\n   `" ++ optNatStr r.code ++ "` — " ++ r.description ++ " — " ++
      optNatStr r.time_ms ++ " ms"
  else
    let since_str :=
      match since with
      | some t => " (caída desde " ++ hhmmss t ++ ", " ++ duration_str nowT t ++ ")"
      | none => ""
    report_emoji r.status ++ " *" ++ r.url ++ "*\n   " ++ code_str r.code ++ " — " ++
      r.description ++ since_str

/-- `build_full_report` (lines 206-224): header with counts, separator,
then one line per result; `downSince` is the `down_since` map restricted to
lookups. -/
def build_full_report (nowStr : String) (nowT : Nat) (downSince : String → Option Nat)
    (results : List CheckResult) : String :=
  String.intercalate "\n"
    (["📡 *Estado de Webs* — " ++ nowStr,
      "🌐 Total: " ++ toString results.length ++ "  ✅ UP: " ++
        toString (report_ok_count results) ++ "  ❌ DOWN: " ++
        toString (report_failed_count results),
      "─────────────────────────"]
     ++ results.map (fun r => report_line nowT (downSince r.url) r))

/-- The per-target projection of the three module-level state maps
(lines 58-62): `down_since[url]` (`none` when the key is absent),
`url in alerted`, and `ok_streak[url]` (`none` when the key is absent). -/
structure TargetState where
  down_since : Option Nat
  alerted : Bool
  ok_streak : Option Nat
deriving DecidableEq

/-- The initial per-target state: all three maps start empty (lines 58-62). -/
def initState : TargetState := ⟨none, false, none⟩

/-- The notification-producing actions of one `monitor_loop` step for one
target: the `build_alert`/`send_message` of lines 250-252, and the
`build_recovery`/`send_message` of lines 266-270, which carries the `since`
timestamp it reports (`down_since.pop(url, now)`). -/
inductive Action where
  | alert
  | recovery (since : Nat)
deriving DecidableEq

/-- Whether an action is the Alert action. -/
def Action.isAlert : Action → Bool
  | .alert => true
  | .recovery _ => false

/-- Whether an action is the Recovery action. -/
def Action.isRecovery : Action → Bool
  | .alert => false
  | .recovery _ => true

/-- Whether a step's action list contains a Recovery action. -/
def emitsRecovery (acts : List Action) : Bool := acts.any Action.isRecovery

/-- The body of the `for r in results` loop of `monitor_loop`
(lines 237-274) for one target, as a function of the recovery threshold
`R` (`RECOVERY_CONFIRMS`), the cycle timestamp `now` (line 235), the
target's current state and `is_ok = (r["status"] == "ok")` (line 239).
Returns the updated state and the notifications sent.

Non-ok branch (lines 241-255): pop `ok_streak`; set `down_since = now` if
absent; if not yet alerted, send one alert and mark alerted.
Ok branch (lines 257-274): if alerted, increment the streak
(`ok_streak.get(url, 0) + 1`); once it reaches `R`, pop all three entries
(`since = down_since.pop(url, now)` with default `now`) and send the
recovery message; if not alerted, just pop `ok_streak`. -/
def stepTarget (R : Nat) (now : Nat) (s : TargetState) (is_ok : Bool) :
    TargetState × List Action :=
  if !is_ok then
    let s1 : TargetState := { s with ok_streak := none }
    let s2 : TargetState :=
      if s1.down_since = none then { s1 with down_since := some now } else s1
    if !s2.alerted then ({ s2 with alerted := true }, [Action.alert])
    else (s2, [])
  else
    if s.alerted then
      let streak := s.ok_streak.getD 0 + 1
      if R ≤ streak then
        let since := s.down_since.getD now
        (⟨none, false, none⟩, [Action.recovery since])
      else ({ s with ok_streak := some streak }, [])
    else
      ({ s with ok_streak := none }, [])

/-- The state effect of `cmd_check` (lines 299-306) for one target: for a
non-ok result whose URL has no `down_since` entry, set it to `now`
(lines 303-305); nothing else is touched — `alerted` and `ok_streak` are
not read or written, and no alert or recovery notification is sent (the
only messages sent are the acknowledgement and the full report). -/
def cmdCheckTarget (now : Nat) (s : TargetState) (is_ok : Bool) : TargetState :=
  if !is_ok ∧ s.down_since = none then { s with down_since := some now } else s

/-- A run of consecutive `monitor_loop` steps on one target: each element
of the list is one cycle's `(now, is_ok)` observation; returns the final
state and each cycle's emitted actions. -/
def runTrace (R : Nat) : TargetState → List (Nat × Bool) → TargetState × List (List Action)
  | s, [] => (s, [])
  | s, (now, b) :: rest =>
    let st := stepTarget R now s b
    let r := runTrace R st.1 rest
    (r.1, st.2 :: r.2)

/-- Count of actions satisfying `p` across the per-cycle action lists. -/
def countIn (p : Action → Bool) (steps : List (List Action)) : Nat :=
  (steps.map (fun acts => (acts.filter p).length)).sum

/-- The per-target states reachable from the empty maps by any
interleaving of `monitor_loop` cycles (with threshold `R`) and on-demand
`cmd_check` invocations, with arbitrary timestamps and probe outcomes. -/
inductive Reachable (R : Nat) : TargetState → Prop where
  | init : Reachable R initState
  | monitor (s : TargetState) (now : Nat) (b : Bool) (h : Reachable R s) :
      Reachable R (stepTarget R now s b).1
  | check (s : TargetState) (now : Nat) (b : Bool) (h : Reachable R s) :
      Reachable R (cmdCheckTarget now s b)

/-! Helper lemmas: closed forms of one `monitor_loop` step per branch. -/

/-- A non-ok result (lines 241-255): the streak entry is popped, `down_since`
is set when absent, the target ends alerted, and an alert is sent exactly
when it was not alerted before. -/
lemma stepTarget_not_ok (R now : Nat) (s : TargetState) :
    stepTarget R now s false =
      (⟨if s.down_since = none then some now else s.down_since, true, none⟩,
        if s.alerted = false then [Action.alert] else []) := by
  obtain ⟨d, a, k⟩ := s
  cases a <;> cases d <;> simp [stepTarget]

/-- An ok result while alerted, streak reaching the threshold
(lines 264-271): all three entries are cleared and one recovery is sent
carrying `down_since.pop(url, now)`. -/
lemma stepTarget_ok_conf (R now : Nat) (s : TargetState) (hA : s.alerted = true)
    (hc : R ≤ s.ok_streak.getD 0 + 1) :
    stepTarget R now s true =
      (⟨none, false, none⟩, [Action.recovery (s.down_since.getD now)]) := by
  simp [stepTarget, hA, hc]

/-- An ok result while alerted, streak below the threshold (lines 259-263):
the streak is incremented, nothing else changes, nothing is sent. -/
lemma stepTarget_ok_noconf (R now : Nat) (s : TargetState) (hA : s.alerted = true)
    (hc : ¬ R ≤ s.ok_streak.getD 0 + 1) :
    stepTarget R now s true = ({ s with ok_streak := some (s.ok_streak.getD 0 + 1) }, []) := by
  simp [stepTarget, hA, hc]

/-- An ok result while not alerted (lines 272-274): only the streak entry is
popped, nothing is sent. -/
lemma stepTarget_ok_not_alerted (R now : Nat) (s : TargetState) (hA : s.alerted = false) :
    stepTarget R now s true = ({ s with ok_streak := none }, []) := by
  simp [stepTarget, hA]

/-- Invariant of every reachable per-target state: an alerted target has an
open incident, and a non-alerted target has no streak entry. -/
lemma reachable_inv {R : Nat} {s : TargetState} (h : Reachable R s) :
    (s.alerted = true → s.down_since.isSome = true) ∧
    (s.alerted = false → s.ok_streak = none) := by
  induction h with
  | init => simp [initState]
  | monitor s' now b hs ih =>
    obtain ⟨d, a, k⟩ := s'
    obtain ⟨ih1, ih2⟩ := ih
    cases b
    · rw [stepTarget_not_ok]
      cases d <;> simp
    · cases a
      · rw [stepTarget_ok_not_alerted _ _ _ rfl]
        simp
      · by_cases hc : R ≤ (Option.getD k 0) + 1
        · rw [stepTarget_ok_conf _ _ _ rfl hc]
          simp
        · rw [stepTarget_ok_noconf _ _ _ rfl hc]
          simpa using ih1 rfl
  | check s' now b hs ih =>
    obtain ⟨d, a, k⟩ := s'
    obtain ⟨ih1, ih2⟩ := ih
    cases b <;> cases d <;> simp_all [cmdCheckTarget]

/-- Invariant of every reachable per-target state (for a positive threshold
`R`): the streak counter stays below `R` — it is cleared the moment it
reaches `R`. -/
lemma reachable_streak_lt {R : Nat} (hR : 1 ≤ R) {s : TargetState} (h : Reachable R s) :
    s.ok_streak.getD 0 < R := by
  induction h with
  | init => simpa [initState] using hR
  | monitor s' now b hs ih =>
    obtain ⟨d, a, k⟩ := s'
    cases b
    · rw [stepTarget_not_ok]
      simpa using hR
    · cases a
      · rw [stepTarget_ok_not_alerted _ _ _ rfl]
        simpa using hR
      · by_cases hc : R ≤ (Option.getD k 0) + 1
        · rw [stepTarget_ok_conf _ _ _ rfl hc]
          simpa using hR
        · rw [stepTarget_ok_noconf _ _ _ rfl hc]
          simpa using hc
  | check s' now b hs ih =>
    obtain ⟨d, a, k⟩ := s'
    cases b <;> simp_all [cmdCheckTarget] <;> split_ifs <;> simpa using ih

/-- Unfolding `countIn` over one cycle's action list. -/
lemma countIn_cons (p : Action → Bool) (acts : List Action) (rest : List (List Action)) :
    countIn p (acts :: rest) = (acts.filter p).length + countIn p rest := by
  simp [countIn]

/-- Across any run of `monitor_loop` cycles, the number of alerts sent for
one target exceeds the number of recoveries sent by at most one, and not at
all when the run starts already alerted: each alert needs a preceding
recovery to re-open alerting. -/
lemma alerts_le_recoveries (R : Nat) :
    ∀ (rs : List (Nat × Bool)) (s : TargetState),
      countIn Action.isAlert (runTrace R s rs).2 ≤
        countIn Action.isRecovery (runTrace R s rs).2 +
          (if s.alerted = true then 0 else 1) := by
  intro rs
  induction rs with
  | nil =>
    intro s
    simp [runTrace, countIn]
  | cons p rest ih =>
    intro s
    obtain ⟨now, b⟩ := p
    obtain ⟨d, a, k⟩ := s
    cases b
    · have hstep := stepTarget_not_ok R now ⟨d, a, k⟩
      simp only [runTrace, hstep]
      have hrest := ih ⟨if d = none then some now else d, true, none⟩
      cases a <;>
        simp_all [countIn_cons, Action.isAlert, Action.isRecovery] <;> omega
    · cases a
      · have hstep := stepTarget_ok_not_alerted R now ⟨d, false, k⟩ rfl
        simp only [runTrace, hstep]
        have hrest := ih ⟨d, false, none⟩
        simp_all [countIn_cons, Action.isAlert, Action.isRecovery]
      · by_cases hc : R ≤ (Option.getD k 0) + 1
        · have hstep := stepTarget_ok_conf R now ⟨d, true, k⟩ rfl hc
          simp only [runTrace, hstep]
          have hrest := ih ⟨none, false, none⟩
          simp_all [countIn_cons, Action.isAlert, Action.isRecovery]
          omega
        · have hstep := stepTarget_ok_noconf R now ⟨d, true, k⟩ rfl hc
          simp only [runTrace, hstep]
          have hrest := ih ⟨d, true, some (Option.getD k 0 + 1)⟩
          simp_all [countIn_cons, Action.isAlert, Action.isRecovery]

/-- C1: For every target in the alerted state, the Recovery action is
emitted exactly when the count of consecutive Ok results since the last
non-Ok result reaches `RECOVERY_CONFIRMS`: a non-Ok result resets the
consecutive-Ok counter to 0 (the `ok_streak` entry is popped, line 243),
and an Ok result triggers the recovery exactly when the incremented streak
reaches the threshold (in a reachable state the streak is below the
threshold, so `≥` means exactly reaching it).  The spec's own example is
included: with threshold 3, the sequence Ok, Ok, Fail, Ok, Ok, Ok from an
alerted state confirms recovery only on the final cycle. -/
theorem c1_recovery_exactly_at_threshold (R now : Nat) (s : TargetState)
    (hR : 1 ≤ R) (hreach : Reachable R s) (hA : s.alerted = true) :
    (stepTarget R now s false).1.ok_streak.getD 0 = 0 ∧
    (emitsRecovery (stepTarget R now s true).2 = true ↔ s.ok_streak.getD 0 + 1 = R) ∧
    (runTrace 3 ⟨some 0, true, none⟩
        [(1, true), (2, true), (3, false), (4, true), (5, true), (6, true)]).2 =
      [[], [], [], [], [], [Action.recovery 0]] := by
  have hlt := reachable_streak_lt hR hreach
  refine ⟨?_, ?_, by decide⟩
  · rw [stepTarget_not_ok]
    rfl
  · by_cases hc : R ≤ s.ok_streak.getD 0 + 1
    · rw [stepTarget_ok_conf R now s hA hc]
      simp [emitsRecovery, Action.isRecovery]
      omega
    · rw [stepTarget_ok_noconf R now s hA hc]
      simp [emitsRecovery]
      omega

/-- Witness for C1 at the concrete reachable alerted state obtained by one
failing cycle from the initial state, with threshold 2. -/
theorem c1_witness :
    (stepTarget 2 9 (stepTarget 2 7 initState false).1 false).1.ok_streak.getD 0 = 0 ∧
    (emitsRecovery (stepTarget 2 9 (stepTarget 2 7 initState false).1 true).2 = true ↔
      (stepTarget 2 7 initState false).1.ok_streak.getD 0 + 1 = 2) ∧
    (runTrace 3 ⟨some 0, true, none⟩
        [(1, true), (2, true), (3, false), (4, true), (5, true), (6, true)]).2 =
      [[], [], [], [], [], [Action.recovery 0]] :=
  c1_recovery_exactly_at_threshold 2 9 (stepTarget 2 7 initState false).1 (by decide)
    (Reachable.monitor initState 7 false Reachable.init) (by decide)

/-- C2: At most one Alert per open incident: in a reachable state with no
open incident the first non-Ok result emits exactly one Alert and marks the
target alerted; any further non-Ok result while the target is still in the
alerted set emits no action at all; and over any run of cycles the number
of alerts exceeds the number of recoveries by at most one (zero when
starting already alerted), so a second alert for the same target needs an
intervening confirmed recovery. -/
theorem c2_at_most_one_alert_per_incident (R now : Nat) (s : TargetState)
    (rs : List (Nat × Bool)) (hreach : Reachable R s) :
    (s.down_since = none →
      (stepTarget R now s false).2 = [Action.alert] ∧
        (stepTarget R now s false).1.alerted = true) ∧
    (s.alerted = true → (stepTarget R now s false).2 = []) ∧
    countIn Action.isAlert (runTrace R s rs).2 ≤
      countIn Action.isRecovery (runTrace R s rs).2 +
        (if s.alerted = true then 0 else 1) := by
  obtain ⟨hinv1, hinv2⟩ := reachable_inv hreach
  refine ⟨?_, ?_, alerts_le_recoveries R rs s⟩
  · intro hd
    have hA : s.alerted = false := by
      cases ha : s.alerted
      · rfl
      · have := hinv1 ha
        rw [hd] at this
        simp at this
    rw [stepTarget_not_ok]
    simp [hA]
  · intro hA
    rw [stepTarget_not_ok]
    simp [hA]

/-- Witness for C2: from the initial (incident-free) state, a failing probe
produces exactly one Alert and an alerted target. -/
theorem c2_witness :
    (stepTarget 1 5 initState false).2 = [Action.alert] ∧
      (stepTarget 1 5 initState false).1.alerted = true :=
  (c2_at_most_one_alert_per_incident 1 5 initState [] Reachable.init).1 rfl

/-- C3: In every state reachable from the empty maps by any interleaving of
`monitor_loop` cycles and on-demand `cmd_check` invocations: an alerted
target has an open incident (a `down_since` entry), a positive
consecutive-Ok counter implies the target is alerted, and the counter is
absent-or-zero for every non-alerted target. -/
theorem c3_tracker_invariants (R : Nat) (s : TargetState) (h : Reachable R s) :
    (s.alerted = true → s.down_since.isSome = true) ∧
    (0 < s.ok_streak.getD 0 → s.alerted = true) ∧
    (s.alerted = false → s.ok_streak.getD 0 = 0) := by
  obtain ⟨h1, h2⟩ := reachable_inv h
  refine ⟨h1, ?_, ?_⟩
  · intro hpos
    cases ha : s.alerted
    · rw [h2 ha] at hpos
      simp at hpos
    · rfl
  · intro hf
    rw [h2 hf]
    rfl

/-- Witness for C3 at the concrete reachable state reached by one failing
cycle: it is alerted, so it has an open incident. -/
theorem c3_witness : (stepTarget 1 7 initState false).1.down_since.isSome = true :=
  (c3_tracker_invariants 1 (stepTarget 1 7 initState false).1
      (Reachable.monitor initState 7 false Reachable.init)).1 (by decide)

/-- C4: When recovery is confirmed (alerted target, incremented streak
reaching the threshold), the very same step removes the `down_since` entry,
the alerted membership and the `ok_streak` entry together — the resulting
state is exactly the empty per-target state — and a non-Ok result in any
later cycle re-opens a fresh incident stamped with that cycle's timestamp. -/
theorem c4_atomic_clear_and_fresh_incident (R now now2 : Nat) (s : TargetState)
    (hA : s.alerted = true) (hc : R ≤ s.ok_streak.getD 0 + 1) :
    (stepTarget R now s true).1 = initState ∧
    (stepTarget R now2 (stepTarget R now s true).1 false).1.down_since = some now2 := by
  have h1 : (stepTarget R now s true).1 = initState := by
    rw [stepTarget_ok_conf R now s hA hc]
    rfl
  refine ⟨h1, ?_⟩
  rw [h1, stepTarget_not_ok]
  simp [initState]

/-- Witness for C4: threshold 1, an alerted state with an incident opened at
time 3 recovers at time 9 into the empty state, and a failure at time 11
opens a fresh incident stamped 11. -/
theorem c4_witness :
    (stepTarget 1 9 ⟨some 3, true, none⟩ true).1 = initState ∧
    (stepTarget 1 11 (stepTarget 1 9 ⟨some 3, true, none⟩ true).1 false).1.down_since =
      some 11 :=
  c4_atomic_clear_and_fresh_incident 1 9 11 ⟨some 3, true, none⟩ (by decide) (by decide)

/-- C5 counterexample: the claimed "`down_since` present iff the latest
probe was non-Ok" fails.  From the empty state, an on-demand `cmd_check` at
time 5 observes a failure and records `down_since = 5` without alerting; the
next `monitor_loop` cycle at time 6 observes the target Ok, but because the
target is not in `alerted` the code only pops `ok_streak` (line 274) — the
`down_since` entry survives a latest-probe-Ok state.  The violating state is
exhibited as reachable. -/
theorem c5_counterexample :
    Reachable 1 (stepTarget 1 6 (cmdCheckTarget 5 initState false) true).1 ∧
    (stepTarget 1 6 (cmdCheckTarget 5 initState false) true).1.down_since = some 5 :=
  ⟨Reachable.monitor (cmdCheckTarget 5 initState false) 6 true
      (Reachable.check initState 5 false Reachable.init),
    by decide⟩

/-- C5 amended: a non-Ok `monitor_loop` result always leaves a `down_since`
entry; an Ok result never creates one; an existing entry survives an Ok
result unchanged except exactly when the step confirms a recovery (in which
case it is removed); and `cmd_check` creates an entry for every non-Ok
result and never touches it on an Ok result.  Hence `down_since` can outlive
the downtime: a target whose latest probe is Ok keeps its entry while
recovery confirmation is pending or when the entry was created by an
on-demand check of a never-alerted target. -/
theorem c5_down_since_lifecycle (R now : Nat) (s : TargetState) :
    (stepTarget R now s false).1.down_since.isSome = true ∧
    (s.down_since = none → (stepTarget R now s true).1.down_since = none) ∧
    (s.down_since.isSome = true →
      (stepTarget R now s true).1.down_since = s.down_since ∨
        ((stepTarget R now s true).1.down_since = none ∧
          emitsRecovery (stepTarget R now s true).2 = true)) ∧
    (cmdCheckTarget now s false).down_since.isSome = true ∧
    (cmdCheckTarget now s true).down_since = s.down_since := by
  refine ⟨?_, ?_, ?_, ?_, ?_⟩
  · rw [stepTarget_not_ok]
    cases hd : s.down_since <;> simp [hd]
  · intro hd
    cases ha : s.alerted
    · rw [stepTarget_ok_not_alerted _ _ _ ha]
      simpa using hd
    · by_cases hc : R ≤ s.ok_streak.getD 0 + 1
      · rw [stepTarget_ok_conf _ _ _ ha hc]
      · rw [stepTarget_ok_noconf _ _ _ ha hc]
        simpa using hd
  · intro hd
    cases ha : s.alerted
    · left
      rw [stepTarget_ok_not_alerted _ _ _ ha]
    · by_cases hc : R ≤ s.ok_streak.getD 0 + 1
      · right
        rw [stepTarget_ok_conf _ _ _ ha hc]
        exact ⟨rfl, rfl⟩
      · left
        rw [stepTarget_ok_noconf _ _ _ ha hc]
  · cases hd : s.down_since <;> simp [cmdCheckTarget, hd]
  · simp [cmdCheckTarget]

/-- Witness for C5's amended theorem: an Ok result on the incident-free
initial state leaves `down_since` absent. -/
theorem c5_witness : (stepTarget 1 5 initState true).1.down_since = none :=
  (c5_down_since_lifecycle 1 5 initState).2.1 rfl

/-- C6: the on-demand `cmd_check` state update never changes `alerted` or
`ok_streak`, and its only effect on `down_since` is to add the current
timestamp for a non-Ok target with no existing entry; repeating it (with any
later timestamp and the same probe outcome) is idempotent, so any number of
on-demand checks between cycles leaves the alert-dedup state unchanged.  It
sends no Alert or Recovery: the embedded update produces no `Action` — in
the source (lines 299-306) the only messages sent are the acknowledgement
and the full report, never `build_alert`/`build_recovery`. -/
theorem c6_on_demand_check_pure (now now2 : Nat) (s : TargetState) (b : Bool) :
    (cmdCheckTarget now s b).alerted = s.alerted ∧
    (cmdCheckTarget now s b).ok_streak = s.ok_streak ∧
    (cmdCheckTarget now s b).down_since =
      (if !b ∧ s.down_since = none then some now else s.down_since) ∧
    cmdCheckTarget now2 (cmdCheckTarget now s b) b = cmdCheckTarget now s b := by
  obtain ⟨d, a, k⟩ := s
  cases b <;> cases d <;> simp [cmdCheckTarget]

/-- C7 counterexample: the code does not classify generic transport
failures distinctly from HTTP client/server errors — a non-timeout
exception (here a DNS failure) and a 500 response both get the very same
`status = "error"`, so there is no separate TransportError outcome. -/
theorem c7_counterexample :
    (check_website "u" (.raised "net::ERR_NAME_NOT_RESOLVED at https://u")).status =
      (check_website "u" (.gotoReturned (some 500) 120)).status ∧
    (check_website "u" (.raised "net::ERR_NAME_NOT_RESOLVED at https://u")).status =
      "error" := by
  constructor <;> decide

/-- C7 amended: for an obtained status code `c`, `200 ≤ c < 300` yields
"ok", `300 ≤ c < 400` yields "warning", and any other code — or no code
obtained — yields "error" (with detail "Sin respuesta" in the no-code
case); an exception whose message contains "timeout" (case-insensitively)
yields "timeout"; every other exception yields the same "error"
classification as ClientOrServerError — distinguished only by its absent
code and latency fields, not by a separate TransportError status — with the
first 80 characters of the message as detail; and the probe never raises
past its boundary: every probe event yields a result with one of the four
statuses. -/
theorem c7_probe_classification (url : String) (c elapsedMs : Nat) (msg : String)
    (ev : ProbeEvent) :
    (check_website url (.gotoReturned none elapsedMs) =
      ⟨url, "error", none, some elapsedMs, "Sin respuesta"⟩) ∧
    (200 ≤ c → c < 300 →
      (check_website url (.gotoReturned (some c) elapsedMs)).status = "ok") ∧
    (300 ≤ c → c < 400 →
      (check_website url (.gotoReturned (some c) elapsedMs)).status = "warning") ∧
    (¬(200 ≤ c ∧ c < 300) → ¬(300 ≤ c ∧ c < 400) →
      (check_website url (.gotoReturned (some c) elapsedMs)).status = "error") ∧
    (containsSubstr (lowerStr msg) "timeout" = true →
      check_website url (.raised msg) =
        ⟨url, "timeout", none, some TIMEOUT, "Tiempo de espera agotado"⟩) ∧
    (containsSubstr (lowerStr msg) "timeout" = false →
      check_website url (.raised msg) = ⟨url, "error", none, none, msg.take 80⟩) ∧
    ((check_website url ev).status = "ok" ∨ (check_website url ev).status = "warning" ∨
      (check_website url ev).status = "timeout" ∨
        (check_website url ev).status = "error") := by
  refine ⟨rfl, ?_, ?_, ?_, ?_, ?_, ?_⟩
  · intro h1 h2
    simp [check_website, h1, h2]
  · intro h1 h2
    have hn : ¬(200 ≤ c ∧ c < 300) := by omega
    simp [check_website, hn, h1, h2]
  · intro h1 h2
    simp [check_website, h1, h2]
  · intro h
    simp [check_website, h]
  · intro h
    simp [check_website, h]
  · cases ev with
    | gotoReturned code e =>
      cases code with
      | none => simp [check_website]
      | some c2 =>
        simp only [check_website]
        split_ifs <;> simp
    | raised m =>
      simp only [check_website]
      split_ifs <;> simp

/-- Witness for C7's amended theorem: a 301 response is classified
"warning". -/
theorem c7_witness :
    (check_website "u" (.gotoReturned (some 301) 120)).status = "warning" :=
  (c7_probe_classification "u" 301 120 "m" (.gotoReturned (some 301) 120)).2.2.1
    (by decide) (by decide)

/-- C8: for a whole-second downtime of `t` seconds, `duration_str` renders
hours+minutes when at least one hour, minutes+seconds when at least one
minute but under an hour, and seconds alone under a minute; in particular
90 s renders "1m 30s", 3661 s renders "1h 1m" and 45 s renders "45s". -/
theorem c8_duration_formatting (t : Nat) :
    (3600 ≤ t →
      duration_str t 0 = toString (t / 3600) ++ "h " ++ toString (t % 3600 / 60) ++ "m") ∧
    (60 ≤ t → t < 3600 →
      duration_str t 0 = toString (t / 60) ++ "m " ++ toString (t % 60) ++ "s") ∧
    (t < 60 → duration_str t 0 = toString t ++ "s") ∧
    duration_str 90 0 = "1m 30s" ∧ duration_str 3661 0 = "1h 1m" ∧
    duration_str 45 0 = "45s" := by
  refine ⟨?_, ?_, ?_, by decide, by decide, by decide⟩
  · intro h
    unfold duration_str
    simp only [Nat.sub_zero]
    split_ifs with h1 h2 <;> first | rfl | omega
  · intro h1 h2
    unfold duration_str
    simp only [Nat.sub_zero]
    rw [show t % 3600 = t from by omega]
    split_ifs with g1 g2 <;> first | rfl | omega
  · intro h
    unfold duration_str
    simp only [Nat.sub_zero]
    rw [show t % 3600 = t from by omega, show t % 60 = t from by omega]
    split_ifs with g1 g2 <;> first | rfl | omega

/-- Witness for C8 at the concrete downtimes of the spec's examples. -/
theorem c8_witness :
    duration_str 3661 0 = toString (3661 / 3600) ++ "h " ++
      toString (3661 % 3600 / 60) ++ "m" :=
  (c8_duration_formatting 3661).1 (by decide)

/-- C9 counterexample: the full report does not present a Redirect target
distinctly from hard failure.  A 301 result (status "warning") is counted
in the DOWN tally exactly like a 500 result — one failed target each — and
both are rendered with the identical "❌" marker (only "timeout" gets the
distinct "⏱️" marker). -/
theorem c9_counterexample :
    report_failed_count [check_website "https://a" (.gotoReturned (some 301) 120)] = 1 ∧
    report_failed_count [check_website "https://a" (.gotoReturned (some 500) 120)] = 1 ∧
    report_emoji (check_website "https://a" (.gotoReturned (some 301) 120)).status =
      report_emoji (check_website "https://a" (.gotoReturned (some 500) 120)).status := by
  refine ⟨by decide, by decide, by decide⟩

/-- C9 amended: in the full-report snapshot a Redirect target (status
"warning") is excluded from the UP tally and counted in the DOWN tally
exactly like the hard-failure statuses, and its line carries the same "❌"
marker as ClientOrServerError and TransportError lines; its distinctness
survives only in the rendered status code and description text. -/
theorem c9_warning_reported_as_down (nowT : Nat) (since : Option Nat) (r : CheckResult)
    (rs : List CheckResult) (hw : r.status = "warning") :
    report_ok_count (r :: rs) = report_ok_count rs ∧
    report_failed_count (r :: rs) = report_failed_count rs + 1 ∧
    report_emoji r.status = "❌" ∧
    report_line nowT since r =
      "❌ *" ++ r.url ++ "*\n   " ++ code_str r.code ++ " — " ++ r.description ++
        (match since with
          | some t => " (caída desde " ++ hhmmss t ++ ", " ++ duration_str nowT t ++ ")"
          | none => "") := by
  have hok : ¬ r.status = "ok" := by
    rw [hw]
    decide
  have h1 : report_ok_count (r :: rs) = report_ok_count rs := by
    simp [report_ok_count, hok]
  refine ⟨h1, ?_, ?_, ?_⟩
  · have hle : (rs.filter (fun x => x.status = "ok")).length ≤ rs.length :=
      List.length_filter_le _ _
    simp only [report_failed_count, h1, List.length_cons, report_ok_count] at *
    omega
  · rw [hw]
    decide
  · simp only [report_line, hok, if_false, report_emoji, hw]
    cases since <;> simp

/-- Witness for C9's amended theorem: a lone 301-warning target yields a
report with one DOWN target. -/
theorem c9_witness :
    report_failed_count [check_website "https://a" (.gotoReturned (some 301) 120)] =
      report_failed_count ([] : List CheckResult) + 1 :=
  (c9_warning_reported_as_down 0 none
      (check_website "https://a" (.gotoReturned (some 301) 120)) [] (by decide)).2.1

/-- C10: confirming a recovery is total even without an incident record:
for an alerted target with no `down_since` entry whose streak reaches the
threshold, the step still fires — `down_since.pop(url, now)` defaults to the
cycle timestamp (line 266) — emitting a Recovery whose `since` equals `now`,
clearing the state, and the rendered message reports an elapsed downtime of
"0s" rather than raising. -/
theorem c10_recovery_total_without_incident (R now : Nat) (s : TargetState)
    (ns u : String) (hA : s.alerted = true) (hd : s.down_since = none)
    (hc : R ≤ s.ok_streak.getD 0 + 1) :
    (stepTarget R now s true).2 = [Action.recovery now] ∧
    (stepTarget R now s true).1 = initState ∧
    duration_str now now = "0s" ∧
    build_recovery ns now u now =
      "✅ *RECUPERADA — " ++ ns ++ "*\n🌐 " ++ u ++ "\n⏱ Tiempo caída: *" ++ "0s" ++
        "*" := by
  have hdur : duration_str now now = "0s" := by
    simp only [duration_str, Nat.sub_self]
    decide
  refine ⟨?_, ?_, hdur, ?_⟩
  · rw [stepTarget_ok_conf R now s hA hc, hd]
    rfl
  · rw [stepTarget_ok_conf R now s hA hc]
    rfl
  · unfold build_recovery
    rw [hdur]

/-- Witness for C10: threshold 1, an alerted state with no incident record
recovering at time 8 emits `Recovery 8` and reports "0s". -/
theorem c10_witness :
    (stepTarget 1 8 ⟨none, true, none⟩ true).2 = [Action.recovery 8] ∧
    (stepTarget 1 8 ⟨none, true, none⟩ true).1 = initState ∧
    duration_str 8 8 = "0s" ∧
    build_recovery "01/01/2024 12:00:00" 8 "https://a" 8 =
      "✅ *RECUPERADA — " ++ "01/01/2024 12:00:00" ++ "*\n🌐 " ++ "https://a" ++
        "\n⏱ Tiempo caída: *" ++ "0s" ++ "*" :=
  c10_recovery_total_without_incident 1 8 ⟨none, true, none⟩ "01/01/2024 12:00:00"
    "https://a" (by decide) rfl (by decide)

end WebMonitorBot
